import Mathlib

/-!
Verification development for the TrickHLA / SpaceFOM latency (lag) compensation core.

The C++ sources embedded here:
  * `SpaceFOM/PhysicalEntityLagCompSA.cpp` — the self-contained-integrator compensator
    (`PhysicalEntityLagCompSA`) and the externally delegated compensator
    (`PhysicalEntityLagComp`);
  * `TrickHLA/LagCompensationInteg.cpp` — the generic hook-based integration loop;
  * `TrickHLA/LagCompensation.cpp` — the abstract base class (scenario-time accessor).

Doubles are embedded as exact rationals: every claim settled here is about loop and
data-flow structure (guards, step choice, slot maps, copy order), which is unaffected
by rounding for the concrete values used.  Machine while-loops become fuel-indexed
recursions; every claim about a loop quantifies over (or fixes) sufficient fuel.
-/

namespace THLAV

/-- A 3-vector of doubles (embedded as exact rationals). -/
structure Vec3 where
  x : ℚ
  y : ℚ
  z : ℚ
deriving DecidableEq

/-- Attitude-quaternion storage: scalar-first (`quat_scalar`, `quat_vector`) as in
`QuaternionData` / the lag-comp data fields. -/
structure QuatData where
  scalar : ℚ
  vector : Vec3
deriving DecidableEq

/-- The kinematic snapshot being compensated (the fields of the `lag_comp_data`
buffer that the 13-slot `integ_states` mapping aliases, plus the timestamp). -/
structure KinState where
  time : ℚ
  pos : Vec3
  vel : Vec3
  quat_scalar : ℚ
  quat_vector : Vec3
  ang_vel : Vec3
deriving DecidableEq

/-- The live `PhysicalEntityBase` kinematic data visible to the compensators:
the timestamped state plus the externally supplied accelerations
(`accel`, `rot_accel`), which are held constant across one compensation step. -/
structure EntityState where
  state : KinState
  accel : Vec3
  rot_accel : Vec3
deriving DecidableEq

def vadd (a b : Vec3) : Vec3 := ⟨a.x + b.x, a.y + b.y, a.z + b.z⟩

def vsmul (c : ℚ) (a : Vec3) : Vec3 := ⟨c * a.x, c * a.y, c * a.z⟩

def vcross (a b : Vec3) : Vec3 :=
  ⟨a.y * b.z - a.z * b.y, a.z * b.x - a.x * b.z, a.x * b.y - a.y * b.x⟩

def vdot (a b : Vec3) : ℚ := a.x * b.x + a.y * b.y + a.z * b.z

/-- Modelled from the spec: `compute_Q_dot` (QuaternionKinematics, spec section 4.1)
is implemented in `PhysicalEntityLagCompBase` / `QuaternionData`, which is not among
the provided sources.  Per the spec it computes the quaternion time derivative as one
half of the Hamilton product of the scalar-first attitude quaternion with the pure
quaternion `(0, omega)`:
`Qdot = (1/2) * (q_s, q_v) * (0, w) = (1/2) * (-q_v . w, q_s w + q_v x w)`. -/
def compute_Q_dot (qs : ℚ) (qv : Vec3) (w : Vec3) : ℚ × Vec3 :=
  ((-(vdot qv w)) / 2, vsmul (1 / 2) (vadd (vsmul qs w) (vcross qv w)))

/-- The `integ_states[13]` aliasing map set up in the constructors of both
compensator variants (`PhysicalEntityLagCompSA.cpp`, constructor bodies):
slot `i` views a field of the lag-comp kinematic state in the fixed layout
`[pos(3), vel(3), quat(4: scalar+vector3), ang_vel(3)]`. -/
def toInteg (k : KinState) : Fin 13 → ℚ := fun i =>
  if i.val = 0 then k.pos.x
  else if i.val = 1 then k.pos.y
  else if i.val = 2 then k.pos.z
  else if i.val = 3 then k.vel.x
  else if i.val = 4 then k.vel.y
  else if i.val = 5 then k.vel.z
  else if i.val = 6 then k.quat_scalar
  else if i.val = 7 then k.quat_vector.x
  else if i.val = 8 then k.quat_vector.y
  else if i.val = 9 then k.quat_vector.z
  else if i.val = 10 then k.ang_vel.x
  else if i.val = 11 then k.ang_vel.y
  else k.ang_vel.z

/-- Writing a 13-slot vector back through the aliasing map: the inverse direction of
`toInteg` (what storing through `integ_states[i]` does to the underlying fields). -/
def fromInteg (old : KinState) (s : Fin 13 → ℚ) : KinState :=
  { old with
    pos := ⟨s 0, s 1, s 2⟩
    vel := ⟨s 3, s 4, s 5⟩
    quat_scalar := s 6
    quat_vector := ⟨s 7, s 8, s 9⟩
    ang_vel := ⟨s 10, s 11, s 12⟩ }

/-- Embedding of `PhysicalEntityLagCompSA::derivatives` (lines 175-218): the
derivative callback over the 13-slot state vector.  `accel` and `rot_accel` are the
externally supplied accelerations read through the user-data pointer. -/
def derivatives (accel rot_accel : Vec3) (states : Fin 13 → ℚ) : Fin 13 → ℚ :=
  fun i =>
    let omega : Vec3 := ⟨states 10, states 11, states 12⟩
    let qdot := compute_Q_dot (states 6) ⟨states 7, states 8, states 9⟩ omega
    if i.val = 0 then states 3
    else if i.val = 1 then states 4
    else if i.val = 2 then states 5
    else if i.val = 3 then accel.x
    else if i.val = 4 then accel.y
    else if i.val = 5 then accel.z
    else if i.val = 6 then qdot.1
    else if i.val = 7 then qdot.2.x
    else if i.val = 8 then qdot.2.y
    else if i.val = 9 then qdot.2.z
    else if i.val = 10 then rot_accel.x
    else if i.val = 11 then rot_accel.y
    else rot_accel.z

/-- The `PhysicalEntityLagCompSA` object state relevant to the claims: the
lag-comp kinematic buffer, the diagnostic `Q_dot`, the copied-in accelerations,
the integration clock `integ_t`, the saved `compensate_dt`, and the configurable
`integ_dt` (default 0.05 = 1/20) and `integ_tol` (default 1e-8). -/
structure SAComp where
  lag_comp_data : KinState
  Q_dot : QuatData
  accel : Vec3
  rot_accel : Vec3
  integ_t : ℚ
  compensate_dt : ℚ
  integ_dt : ℚ
  integ_tol : ℚ
deriving DecidableEq

/-- Modelled from the spec: `copy_state_from_entity` lives in
`PhysicalEntityLagCompBase`, which is not among the provided sources.  Per spec
sections 3 and 6 it snapshots the live entity's kinematic fields and the externally
supplied accelerations into the lag-compensation buffer. -/
def SA_copy_state_from_entity (c : SAComp) (e : EntityState) : SAComp :=
  { c with lag_comp_data := e.state, accel := e.accel, rot_accel := e.rot_accel }

/-- Modelled from the spec: the self-contained integrator member of
`PhysicalEntityLagCompSA` (declared in `PhysicalEntityLagCompSA.hh`, not among the
provided sources).  Per spec section 4.2 a `variable_step(dt)` call advances the
13-slot state by the requested step using the `derivatives` callback, and advances
the independent variable by exactly that step; it is instantiated here as one
forward-Euler stage, matching the Euler integrator used by the delegated variant
(the premise of the refinement claim). -/
def sa_variable_step (c : SAComp) (dt : ℚ) : SAComp :=
  let s := toInteg c.lag_comp_data
  let d := derivatives c.accel c.rot_accel s
  let s2 : Fin 13 → ℚ := fun i => s i + dt * d i
  { c with lag_comp_data := fromInteg c.lag_comp_data s2, integ_t := c.integ_t + dt }

/-- The step-size choice in the `compensate` loop body (lines 258-265):
the defined step while far from the end, the remainder `dt_go` when near it. -/
def sa_step_size (c : SAComp) (dt_go : ℚ) : ℚ :=
  if c.integ_dt < dt_go then c.integ_dt else dt_go

/-- The `while ((dt_go >= 0.0) && (fabs(dt_go) > integ_tol))` integration loop of
`PhysicalEntityLagCompSA::compensate` (lines 252-280), as a fuel-indexed recursion.
Each iteration performs `load` / `variable_step` / `unload` (one `sa_variable_step`
here), refreshes `integ_t` from the integrator and recomputes `dt_go`.  The second
component counts loop iterations. -/
def sa_loop (tEnd : ℚ) : ℕ → SAComp → SAComp × ℕ
  | 0, c => (c, 0)
  | n + 1, c =>
    if 0 ≤ tEnd - c.integ_t ∧ c.integ_tol < |tEnd - c.integ_t| then
      ((sa_loop tEnd n (sa_variable_step c (sa_step_size c (tEnd - c.integ_t)))).1,
       (sa_loop tEnd n (sa_variable_step c (sa_step_size c (tEnd - c.integ_t)))).2 + 1)
    else (c, 0)

/-- Embedding of `PhysicalEntityLagCompSA::compensate` (lines 224-292): copy the
entity state in, compute `Q_dot` once for diagnostics, run the integration loop
from `t_begin` toward `t_end`, record the final integrator time on the compensated
state, and return status 0. -/
def SA_compensate (c : SAComp) (e : EntityState) (t_begin t_end : ℚ) (fuel : ℕ) :
    ℤ × SAComp :=
  let dt_go := t_end - t_begin
  let c1 := SA_copy_state_from_entity c e
  let qd := compute_Q_dot c1.lag_comp_data.quat_scalar c1.lag_comp_data.quat_vector
      c1.lag_comp_data.ang_vel
  let c2 := { c1 with
    Q_dot := ⟨qd.1, qd.2⟩
    integ_t := t_begin
    compensate_dt := dt_go }
  let r := sa_loop t_end fuel c2
  let c3 := { r.1 with lag_comp_data := { r.1.lag_comp_data with time := r.1.integ_t } }
  (0, c3)

/-- Embedding of `PhysicalEntityLagCompSA::send_lag_compensation` (lines 115-138).
The scenario time and lookahead are read from the federation environment; here they
are the `scenario_time` and `lookahead` arguments.  The entity is returned unchanged
(the SA variant performs no copy-out on send). -/
def SA_send_lag_compensation (c : SAComp) (e : EntityState)
    (scenario_time lookahead : ℚ) (fuel : ℕ) : SAComp × EntityState :=
  let begin_t := scenario_time
  let c1 := { c with compensate_dt := lookahead }
  let end_t := begin_t + c1.compensate_dt
  ((SA_compensate c1 e begin_t end_t fuel).2, e)

/-- Embedding of `PhysicalEntityLagCompSA::receive_lag_compensation` (lines 143-169).
`state_received` is the `state_attr->is_received()` gate; if it is false,
`compensate` is skipped.  The entity is returned unchanged (the SA variant performs
no copy-out on receive). -/
def SA_receive_lag_compensation (c : SAComp) (e : EntityState)
    (scenario_time : ℚ) (state_received : Bool) (fuel : ℕ) : SAComp × EntityState :=
  let end_t := scenario_time
  let data_t := e.state.time
  let c1 := { c with compensate_dt := end_t - data_t }
  if state_received then ((SA_compensate c1 e data_t end_t fuel).2, e) else (c1, e)

/-- The externally supplied Trick integrator used by the delegated variant
(the fields of `Trick::Integrator` that the compensator touches): the accumulated
integrator `time`, the step `dt`, the persistent staging `state` buffer and the
derivative buffer (`deriv[intermediate_step]`; Euler is single-stage, so
`intermediate_step` is always 0 and one derivative row suffices). -/
structure TrickInteg where
  time : ℚ
  dt : ℚ
  state : Fin 13 → ℚ
  deriv : Fin 13 → ℚ

/-- Modelled from the spec: the external Trick integrator obtained by
`Trick::getIntegrator(Euler, 26, integ_dt)` is an external collaborator, outside
this repository.  Per spec section 4.2 a first-order Euler pass advances
`state := state + dt * deriv` and `time := time + dt`, and its returned pass flag 0
signals that the main step is complete after a single load/step/unload cycle. -/
def trick_euler_integrate (g : TrickInteg) : TrickInteg × ℤ :=
  ({ g with state := fun i => g.state i + g.dt * g.deriv i, time := g.time + g.dt }, 0)

/-- The `PhysicalEntityLagComp` object state relevant to the claims (the delegated
variant): same compensator fields as `SAComp` plus the owned Trick integrator. -/
structure LagComp where
  lag_comp_data : KinState
  Q_dot : QuatData
  accel : Vec3
  rot_accel : Vec3
  integ_t : ℚ
  compensate_dt : ℚ
  integ_dt : ℚ
  integ_tol : ℚ
  integ : TrickInteg

/-- Modelled from the spec: `copy_state_from_entity` of the delegated variant
(inherited from `PhysicalEntityLagCompBase`, not among the provided sources);
same snapshot as `SA_copy_state_from_entity`. -/
def LC_copy_state_from_entity (c : LagComp) (e : EntityState) : LagComp :=
  { c with lag_comp_data := e.state, accel := e.accel, rot_accel := e.rot_accel }

/-- Modelled from the spec: `copy_state_to_entity` (inherited from
`PhysicalEntityLagCompBase`, not among the provided sources).  Per spec sections 3
and 6 it writes the lag-compensated kinematic state back onto the live entity. -/
def LC_copy_state_to_entity (c : LagComp) (e : EntityState) : EntityState :=
  { e with state := c.lag_comp_data }

/-- Embedding of `PhysicalEntityLagComp::load` (lines 600-639).  The source loop
`for (iinc = 0; iinc < 12; ...)` copies only slots 0..11 of the 13-slot aliasing
array into the integrator's staging buffer, so slot 12 (`ang_vel[2]`) keeps the
staging buffer's previous value; `Q_dot` is then computed from staging slots
6..12 (slot 12 therefore stale), and the derivative row is filled exactly as in
the source. -/
def lc_load (c : LagComp) : LagComp :=
  let ls := toInteg c.lag_comp_data
  let st : Fin 13 → ℚ := fun i => if i.val < 12 then ls i else c.integ.state i
  let qd := compute_Q_dot (st 6) ⟨st 7, st 8, st 9⟩ ⟨st 10, st 11, st 12⟩
  let dv : Fin 13 → ℚ := fun i =>
    if i.val = 0 then st 3
    else if i.val = 1 then st 4
    else if i.val = 2 then st 5
    else if i.val = 3 then c.accel.x
    else if i.val = 4 then c.accel.y
    else if i.val = 5 then c.accel.z
    else if i.val = 6 then qd.1
    else if i.val = 7 then qd.2.x
    else if i.val = 8 then qd.2.y
    else if i.val = 9 then qd.2.z
    else if i.val = 10 then c.rot_accel.x
    else if i.val = 11 then c.rot_accel.y
    else c.rot_accel.z
  { c with
    Q_dot := ⟨qd.1, qd.2⟩
    integ := { c.integ with state := st, deriv := dv } }

/-- Embedding of `PhysicalEntityLagComp::unload` (lines 645-664).  The source loop
`for (iinc = 0; iinc < 12; ...)` copies only staging slots 0..11 back into the
aliased fields, so `ang_vel[2]` keeps its pre-step value; `Q_dot` is then
recomputed from the (partially) unloaded fields. -/
def lc_unload (c : LagComp) : LagComp :=
  let s := c.integ.state
  let k0 := c.lag_comp_data
  let k1 := { k0 with
    pos := ⟨s 0, s 1, s 2⟩
    vel := ⟨s 3, s 4, s 5⟩
    quat_scalar := s 6
    quat_vector := ⟨s 7, s 8, s 9⟩
    ang_vel := ⟨s 10, s 11, k0.ang_vel.z⟩ }
  let qd := compute_Q_dot k1.quat_scalar k1.quat_vector k1.ang_vel
  { c with lag_comp_data := k1, Q_dot := ⟨qd.1, qd.2⟩ }

/-- The step-size choice of the delegated `compensate` loop (lines 544-551),
identical in form to `sa_step_size`. -/
def lc_step_size (c : LagComp) (dt_go : ℚ) : ℚ :=
  if c.integ_dt < dt_go then c.integ_dt else dt_go

/-- One main step of `PhysicalEntityLagComp::compensate` (the body of the
`do { load; set dt; integrate; unload } while (ipass)` inner loop, lines 535-563).
The Euler integrator reports pass flag 0, so the do/while body executes exactly
once per main step: one load/unload round. -/
def lc_step (c : LagComp) (dt_go : ℚ) : LagComp :=
  let c1 := lc_load c
  let g1 := { c1.integ with dt := lc_step_size c1 dt_go }
  let gr := trick_euler_integrate g1
  lc_unload { c1 with integ := gr.1 }

/-- After a main step the outer loop refreshes `integ_t` from the integrator's
time (line 566). -/
def lc_next (c : LagComp) (dt_go : ℚ) : LagComp :=
  let c2 := lc_step c dt_go
  { c2 with integ_t := c2.integ.time }

/-- The `while ((dt_go >= 0.0) && (fabs(dt_go) > integ_tol))` loop of
`PhysicalEntityLagComp::compensate` (lines 531-575), fuel-indexed.  The second
component counts main steps, which (Euler being single-pass) equals the number of
load/unload invocation rounds. -/
def lc_loop (tEnd : ℚ) : ℕ → LagComp → LagComp × ℕ
  | 0, c => (c, 0)
  | n + 1, c =>
    if 0 ≤ tEnd - c.integ_t ∧ c.integ_tol < |tEnd - c.integ_t| then
      ((lc_loop tEnd n (lc_next c (tEnd - c.integ_t))).1,
       (lc_loop tEnd n (lc_next c (tEnd - c.integ_t))).2 + 1)
    else (c, 0)

/-- Embedding of `PhysicalEntityLagComp::compensate` (lines 502-594): copy the
entity state in, compute `Q_dot` for diagnostics, seed `integ_t` and the
integrator time with `t_begin`, run the loop, record the final time on the
compensated state, recompute `Q_dot` from the final state, return status 0. -/
def LC_compensate (c : LagComp) (e : EntityState) (t_begin t_end : ℚ) (fuel : ℕ) :
    ℤ × LagComp :=
  let dt_go := t_end - t_begin
  let c1 := LC_copy_state_from_entity c e
  let qd0 := compute_Q_dot c1.lag_comp_data.quat_scalar c1.lag_comp_data.quat_vector
      c1.lag_comp_data.ang_vel
  let c2 := { c1 with
    Q_dot := ⟨qd0.1, qd0.2⟩
    integ_t := t_begin
    integ := { c1.integ with time := t_begin }
    compensate_dt := dt_go }
  let r := lc_loop t_end fuel c2
  let c3 := { r.1 with lag_comp_data := { r.1.lag_comp_data with time := r.1.integ_t } }
  let qd1 := compute_Q_dot c3.lag_comp_data.quat_scalar c3.lag_comp_data.quat_vector
      c3.lag_comp_data.ang_vel
  (0, { c3 with Q_dot := ⟨qd1.1, qd1.2⟩ })

/-- Embedding of `PhysicalEntityLagComp::send_lag_compensation` (lines 431-460):
compensate from the scenario time to scenario time plus lookahead, then copy the
compensated state back onto the entity (this variant buffers working state). -/
def LC_send_lag_compensation (c : LagComp) (e : EntityState)
    (scenario_time lookahead : ℚ) (fuel : ℕ) : LagComp × EntityState :=
  let begin_t := scenario_time
  let c1 := { c with compensate_dt := lookahead }
  let end_t := begin_t + c1.compensate_dt
  let c2 := (LC_compensate c1 e begin_t end_t fuel).2
  (c2, LC_copy_state_to_entity c2 e)

/-- Embedding of `PhysicalEntityLagComp::receive_lag_compensation` (lines 465-496):
`compensate` is gated by `state_attr->is_received()`, but `copy_state_to_entity`
is invoked unconditionally after the gate. -/
def LC_receive_lag_compensation (c : LagComp) (e : EntityState)
    (scenario_time : ℚ) (state_received : Bool) (fuel : ℕ) : LagComp × EntityState :=
  let end_t := scenario_time
  let data_t := e.state.time
  let c1 := { c with compensate_dt := end_t - data_t }
  let c2 := if state_received then (LC_compensate c1 e data_t end_t fuel).2 else c1
  (c2, LC_copy_state_to_entity c2 e)

/-- Embedding of `PhysicalEntityLagComp::initialize` (lines 408-426).  The result
of the external `Trick::getIntegrator(Euler, 26, integ_dt)` call is the argument;
on NULL the source builds an error message and calls
`DebugHandler::terminate_with_message`, which (spec section 7) terminates the
process — embedded as `Except.error` carrying the message, with no recovery path. -/
def LC_init (getIntegratorResult : Option TrickInteg) (c : LagComp) :
    Except String LagComp :=
  match getIntegratorResult with
  | none => Except.error
      "SpaceFOM::PhysicalEntityLagComp ERROR: Unexpected NULL Trick integrator!"
  | some g => Except.ok { c with integ := g }

/-- The hook contract of `TrickHLA::LagCompensationInteg` (spec section 4.4): a
concrete entity type supplies `derivative_first` (populate current derivatives),
`load` (produce the integrator's staging state and derivative rows from the
domain object), `unload` (move the stepped staging state back into the domain
object), and `update_time` (commit the final integrated time). -/
structure IntegHooks (α : Type) where
  derivative_first : α → α
  load : α → TrickInteg → (Fin 13 → ℚ) × (Fin 13 → ℚ)
  unload : α → TrickInteg → α
  update_time : α → ℚ → α

/-- The `LagCompensationInteg` object state: the domain object, the owned Trick
integrator, and the integration-control fields (constructor, lines 46-53:
`integ_t = 0`, `integ_dt = 0.05`, `integ_tol = 1e-8`). -/
structure GenInteg (α : Type) where
  obj : α
  g : TrickInteg
  integ_t : ℚ
  integ_dt : ℚ
  integ_tol : ℚ

/-- One round of the inner `do { derivative_first; load; set dt; integrate;
unload } while (ipass)` loop of `LagCompensationInteg::integrate` (lines 96-125);
the Euler pass flag 0 ends the do/while after a single round. -/
def gen_round {α : Type} (hk : IntegHooks α) (s : GenInteg α) (dt_go : ℚ) :
    GenInteg α :=
  let a1 := hk.derivative_first s.obj
  let ld := hk.load a1 s.g
  let stepdt := if s.integ_dt < dt_go then s.integ_dt else dt_go
  let gr := trick_euler_integrate { s.g with state := ld.1, deriv := ld.2, dt := stepdt }
  { s with obj := hk.unload a1 gr.1, g := gr.1 }

/-- After a round the outer loop refreshes `integ_t = t_begin + integrator->time`
(line 128). -/
def gen_next {α : Type} (hk : IntegHooks α) (s : GenInteg α) (t_begin dt_go : ℚ) :
    GenInteg α :=
  let s2 := gen_round hk s dt_go
  { s2 with integ_t := t_begin + s2.g.time }

/-- The `while ((dt_go >= 0.0) && (fabs(dt_go) > integ_tol))` loop of
`LagCompensationInteg::integrate` (lines 86-133), fuel-indexed; here
`dt_go = compensate_dt - integrator->time` (the integrator time starts at 0).
The second component counts main steps (= load/unload rounds, Euler being
single-pass). -/
def gen_loop {α : Type} (hk : IntegHooks α) (t_begin compensate_dt : ℚ) :
    ℕ → GenInteg α → GenInteg α × ℕ
  | 0, s => (s, 0)
  | n + 1, s =>
    if 0 ≤ compensate_dt - s.g.time ∧ s.integ_tol < |compensate_dt - s.g.time| then
      ((gen_loop hk t_begin compensate_dt n
          (gen_next hk s t_begin (compensate_dt - s.g.time))).1,
       (gen_loop hk t_begin compensate_dt n
          (gen_next hk s t_begin (compensate_dt - s.g.time))).2 + 1)
    else (s, 0)

/-- Embedding of `LagCompensationInteg::integrate` (lines 67-142): seed
`integ_t = t_begin` and the integrator time with 0, run the loop, then call the
`update_time` hook with the final `integ_t` and the `derivative_first` hook, and
return status 0. -/
def LCI_integrate {α : Type} (hk : IntegHooks α) (s : GenInteg α)
    (t_begin t_end : ℚ) (fuel : ℕ) : ℤ × GenInteg α :=
  let compensate_dt := t_end - t_begin
  let s1 := { s with integ_t := t_begin, g := { s.g with time := 0 } }
  let r := gen_loop hk t_begin compensate_dt fuel s1
  (0, { r.1 with obj := hk.derivative_first (hk.update_time r.1.obj r.1.integ_t) })

/-- The execution-control collaborator reached through the federate
(`Federate::get_execution_control`, dereferenced without a null check in
`LagCompensation::get_scenario_time`). -/
structure ExecutionControl where
  scenario_time : ℚ

/-- The federate reached through the federation object. -/
structure Federate where
  execution_control : ExecutionControl

/-- The federation object a `LagCompensation` instance may be attached to
(`this->object`); only the fields `get_scenario_time` reads are modelled. -/
structure FedObject where
  federate : Option Federate

/-- `std::numeric_limits<double>::max()` = (2^53 - 1) * 2^971, exactly. -/
def dbl_max : ℚ := (2 ^ 53 - 1) * 2 ^ 971

/-- Embedding of `LagCompensation::get_scenario_time` (LagCompensation.cpp,
lines 148-155): if the object pointer and its federate are both set, return the
execution control's scenario time; otherwise return the sentinel
`-std::numeric_limits<double>::max()`. -/
def get_scenario_time (obj : Option FedObject) : ℚ :=
  match obj with
  | some o =>
    match o.federate with
    | some f => f.execution_control.scenario_time
    | none => -dbl_max
  | none => -dbl_max

/-! Concrete instances used by witnesses and counterexamples. -/

def v0 : Vec3 := ⟨0, 0, 0⟩

/-- Zeroed kinematic state with the identity attitude quaternion. -/
def kin0 : KinState := ⟨0, v0, v0, 1, v0, v0⟩

def ent0 : EntityState := ⟨kin0, v0, v0⟩

/-- An entity with a unit rotational acceleration about z and all else zero. -/
def entRot : EntityState := ⟨kin0, v0, ⟨0, 0, 1⟩⟩

/-- An entity spinning about z at unit rate, all accelerations zero. -/
def entSpin : EntityState := ⟨⟨0, v0, v0, 1, v0, ⟨0, 0, 1⟩⟩, v0, v0⟩

/-- A fresh SA compensator with the default `integ_dt = 0.05` and
`integ_tol = 1e-8` from the constructor (lines 58-63). -/
def sa0 : SAComp := ⟨kin0, ⟨0, v0⟩, v0, v0, 0, 0, 1 / 20, 1 / 100000000⟩

/-- A fresh Trick integrator with zeroed buffers (Trick zero-initializes the
state arrays it allocates). -/
def tg0 : TrickInteg := ⟨0, 0, fun _ => 0, fun _ => 0⟩

/-- A fresh delegated compensator with the default `integ_dt = 0.05` and
`integ_tol = 1e-8` from the constructor (lines 354-359). -/
def lc0 : LagComp := ⟨kin0, ⟨0, v0⟩, v0, v0, 0, 0, 1 / 20, 1 / 100000000, tg0⟩

/-- A delegated compensator whose lag buffer differs from `ent0`'s state
(a previously compensated position), as after an earlier cycle. -/
def lcBuf : LagComp :=
  ⟨⟨0, ⟨5, 0, 0⟩, v0, 1, v0, v0⟩, ⟨0, v0⟩, v0, v0, 0, 0, 1 / 20, 1 / 100000000, tg0⟩

/-- Trivial hooks over a unit domain object, for exercising the generic loop. -/
def hooks0 : IntegHooks Unit :=
  ⟨fun a => a, fun _ g => (g.state, fun _ => 1), fun a _ => a, fun a _ => a⟩

/-- A fresh generic-loop state with the default step and tolerance. -/
def gen0 : GenInteg Unit := ⟨(), tg0, 0, 1 / 20, 1 / 100000000⟩

/-- C5: the fixed index-to-field mapping of the 13-slot state vector
([pos(3), vel(3), quat(4: scalar+vector3), ang_vel(3)]) matches the derivative
function's index usage exactly: slots 0-2 of the derivative equal state slots 3-5,
slots 3-5 equal the supplied acceleration, slots 6-9 equal the quaternion rate
computed by `compute_Q_dot` from state slots 6-9 and 10-12, and slots 10-12 equal
the supplied rotational acceleration; and the aliasing map itself follows the
fixed layout. -/
theorem c5_state_slot_map_matches_derivative_indices
    (a r : Vec3) (sv : Fin 13 → ℚ) (k : KinState) :
    (derivatives a r sv 0 = sv 3 ∧ derivatives a r sv 1 = sv 4 ∧
      derivatives a r sv 2 = sv 5) ∧
    (derivatives a r sv 3 = a.x ∧ derivatives a r sv 4 = a.y ∧
      derivatives a r sv 5 = a.z) ∧
    (derivatives a r sv 6,
      Vec3.mk (derivatives a r sv 7) (derivatives a r sv 8) (derivatives a r sv 9)) =
      compute_Q_dot (sv 6) ⟨sv 7, sv 8, sv 9⟩ ⟨sv 10, sv 11, sv 12⟩ ∧
    (derivatives a r sv 10 = r.x ∧ derivatives a r sv 11 = r.y ∧
      derivatives a r sv 12 = r.z) ∧
    (toInteg k 0 = k.pos.x ∧ toInteg k 1 = k.pos.y ∧ toInteg k 2 = k.pos.z ∧
     toInteg k 3 = k.vel.x ∧ toInteg k 4 = k.vel.y ∧ toInteg k 5 = k.vel.z ∧
     toInteg k 6 = k.quat_scalar ∧ toInteg k 7 = k.quat_vector.x ∧
     toInteg k 8 = k.quat_vector.y ∧ toInteg k 9 = k.quat_vector.z ∧
     toInteg k 10 = k.ang_vel.x ∧ toInteg k 11 = k.ang_vel.y ∧
     toInteg k 12 = k.ang_vel.z) :=
  ⟨⟨rfl, rfl, rfl⟩, ⟨rfl, rfl, rfl⟩, rfl, ⟨rfl, rfl, rfl⟩,
   rfl, rfl, rfl, rfl, rfl, rfl, rfl, rfl, rfl, rfl, rfl, rfl, rfl⟩

/-- C8: if the external `Trick::getIntegrator` call returns NULL at
initialization of the delegated compensator, the system terminates immediately
with a fatal error message (no recovery path); with a non-NULL integrator it
proceeds normally. -/
theorem c8_null_integrator_is_fatal (c : LagComp) :
    LC_init none c = Except.error
      "SpaceFOM::PhysicalEntityLagComp ERROR: Unexpected NULL Trick integrator!" ∧
    ∀ g : TrickInteg, LC_init (some g) c = Except.ok { c with integ := g } :=
  ⟨rfl, fun _ => rfl⟩

/-- C9: `compensate` returns status 0 for every input interval and state in both
compensator variants and the generic integrate loop, and the calling entry points
(`send_lag_compensation` / `receive_lag_compensation`) discard the returned
status: their results are exactly the state component of `compensate`'s output,
with the status ignored. -/
theorem c9_compensate_returns_zero_and_entries_discard_it
    {α : Type} (hk : IntegHooks α) (s : GenInteg α)
    (c : SAComp) (lc : LagComp) (e : EntityState) (t0 t1 la : ℚ) (fuel : ℕ) :
    (SA_compensate c e t0 t1 fuel).1 = 0 ∧
    (LC_compensate lc e t0 t1 fuel).1 = 0 ∧
    (LCI_integrate hk s t0 t1 fuel).1 = 0 ∧
    (SA_send_lag_compensation c e t0 la fuel).1 =
      (SA_compensate { c with compensate_dt := la } e t0 (t0 + la) fuel).2 ∧
    (SA_receive_lag_compensation c e t0 true fuel).1 =
      (SA_compensate { c with compensate_dt := t0 - e.state.time } e
        e.state.time t0 fuel).2 ∧
    (LC_send_lag_compensation lc e t0 la fuel).1 =
      (LC_compensate { lc with compensate_dt := la } e t0 (t0 + la) fuel).2 ∧
    (LC_receive_lag_compensation lc e t0 true fuel).1 =
      (LC_compensate { lc with compensate_dt := t0 - e.state.time } e
        e.state.time t0 fuel).2 :=
  ⟨rfl, rfl, rfl, rfl, rfl, rfl, rfl⟩

/-- C4: the send-side entry points target `t1 = t0 + lookahead` and invoke
`compensate(t0, t1)`; the SA variant leaves the entity untouched, while the
delegated variant (which buffers working state separately) copies the
compensated result back onto the entity's transmitted state. -/
theorem c4_send_targets_scenario_time_plus_lookahead
    (c : SAComp) (lc : LagComp) (e : EntityState) (t0 la : ℚ) (fuel : ℕ) :
    SA_send_lag_compensation c e t0 la fuel =
      ((SA_compensate { c with compensate_dt := la } e t0 (t0 + la) fuel).2, e) ∧
    LC_send_lag_compensation lc e t0 la fuel =
      ((LC_compensate { lc with compensate_dt := la } e t0 (t0 + la) fuel).2,
       LC_copy_state_to_entity
         ((LC_compensate { lc with compensate_dt := la } e t0 (t0 + la) fuel).2) e) ∧
    (LC_send_lag_compensation lc e t0 la fuel).2.state =
      (LC_send_lag_compensation lc e t0 la fuel).1.lag_comp_data :=
  ⟨rfl, rfl, rfl⟩

/-- C10: when the `LagCompensation` object is not attached to a federation
object, or the attached object has no federate, `get_scenario_time` returns the
sentinel `-DBL_MAX` instead of failing; with a federate present it returns the
execution control's scenario time; and the compensation core accepts the
sentinel silently (status 0), so the entry points would compensate relative to
that time. -/
theorem c10_detached_scenario_time_sentinel
    (c : SAComp) (e : EntityState) (t1 : ℚ) (fuel : ℕ) :
    get_scenario_time none = -dbl_max ∧
    get_scenario_time (some ⟨none⟩) = -dbl_max ∧
    (∀ f : Federate,
      get_scenario_time (some ⟨some f⟩) = f.execution_control.scenario_time) ∧
    (SA_compensate c e (-dbl_max) t1 fuel).1 = 0 :=
  ⟨rfl, rfl, fun _ => rfl, rfl⟩

/-- C2 counterexample: calling the delegated variant's receive-side entry point
with the received-flag false does NOT leave the entity's kinematic state
unchanged — `copy_state_to_entity` runs unconditionally, overwriting the entity
with the previously compensated buffer (`lcBuf` holds position x = 5, the
entity holds 0). -/
theorem c2_receive_gate_counterexample :
    (LC_receive_lag_compensation lcBuf ent0 1 false 3).2.state ≠ ent0.state := by
  with_unfolding_all decide

/-- C2 amended: with the received-flag false, `compensate` is skipped in both
variants; the SA variant's receive entry leaves the entity (and the lag buffer)
byte-for-byte unchanged, but the delegated variant still invokes
`copy_state_to_entity` unconditionally, so the entity's kinematic state becomes
the previously compensated buffer (changing it whenever the two differ). -/
theorem c2_receive_gate_amended
    (c : SAComp) (lc : LagComp) (e : EntityState) (t0 : ℚ) (fuel : ℕ) :
    (SA_receive_lag_compensation c e t0 false fuel).2 = e ∧
    (SA_receive_lag_compensation c e t0 false fuel).1.lag_comp_data =
      c.lag_comp_data ∧
    (LC_receive_lag_compensation lc e t0 false fuel).2 =
      LC_copy_state_to_entity { lc with compensate_dt := t0 - e.state.time } e ∧
    (LC_receive_lag_compensation lc e t0 false fuel).2.state = lc.lag_comp_data :=
  ⟨rfl, rfl, rfl, rfl⟩

/-- C3 (code bug): at the failing input — all state zero, identity attitude,
rotational acceleration (0,0,1), one main step over [0, 0.05] — the
self-contained variant integrates `ang_vel[2]` to 0.05 while the delegated
variant leaves it at 0, because `PhysicalEntityLagComp::load`/`unload` copy only
12 of the 13 state slots; the two variants' compensated states diverge under the
same derivative definition and step schedule. -/
theorem c3_variant_divergence_at_failing_input :
    (SA_compensate sa0 entRot 0 (1 / 20) 3).2.lag_comp_data.ang_vel =
      ⟨0, 0, 1 / 20⟩ ∧
    (LC_compensate lc0 entRot 0 (1 / 20) 3).2.lag_comp_data.ang_vel = ⟨0, 0, 0⟩ ∧
    (SA_compensate sa0 entRot 0 (1 / 20) 3).2.lag_comp_data ≠
      (LC_compensate lc0 entRot 0 (1 / 20) 3).2.lag_comp_data := by
  refine ⟨by with_unfolding_all decide, by with_unfolding_all decide,
    by with_unfolding_all decide⟩

/-- The SA integration loop never writes the diagnostic `Q_dot` member: the
derivative callback keeps its quaternion rate in locals. -/
lemma sa_loop_Q_dot (tEnd : ℚ) :
    ∀ (fuel : ℕ) (c : SAComp), (sa_loop tEnd fuel c).1.Q_dot = c.Q_dot := by
  intro fuel
  induction fuel with
  | zero => intro c; rfl
  | succ n ih =>
    intro c
    rw [sa_loop]
    split
    · exact ih (sa_variable_step c (sa_step_size c (tEnd - c.integ_t)))
    · rfl

/-- C6 counterexample: for the self-contained variant at a concrete input
(identity attitude, angular velocity (0,0,1), one step over [0, 0.05]) the
`Q_dot` left on the compensator after `compensate` is the pre-loop value (scalar
0), not the quaternion rate recomputed from the final compensated quaternion and
angular velocity (scalar -1/80); so the quaternion derivative is NOT recomputed
after the loop in both variants. -/
theorem c6_sa_no_final_qdot_counterexample :
    (SA_compensate sa0 entSpin 0 (1 / 20) 3).2.Q_dot.scalar = 0 ∧
    (compute_Q_dot (SA_compensate sa0 entSpin 0 (1 / 20) 3).2.lag_comp_data.quat_scalar
        (SA_compensate sa0 entSpin 0 (1 / 20) 3).2.lag_comp_data.quat_vector
        (SA_compensate sa0 entSpin 0 (1 / 20) 3).2.lag_comp_data.ang_vel).1 =
      -(1 / 80) ∧
    (SA_compensate sa0 entSpin 0 (1 / 20) 3).2.Q_dot.scalar ≠
      (compute_Q_dot (SA_compensate sa0 entSpin 0 (1 / 20) 3).2.lag_comp_data.quat_scalar
        (SA_compensate sa0 entSpin 0 (1 / 20) 3).2.lag_comp_data.quat_vector
        (SA_compensate sa0 entSpin 0 (1 / 20) 3).2.lag_comp_data.ang_vel).1 := by
  refine ⟨by with_unfolding_all decide, by with_unfolding_all decide,
    by with_unfolding_all decide⟩

/-- C6 amended: after the integration loop exits, the final integrator time is
recorded on the compensated state in both compensator variants, and the
quaternion derivative is recomputed from the final compensated quaternion and
angular velocity in the delegated variant; the generic integrate loop likewise
commits the final time through its `update_time` hook and then calls its
`derivative_first` hook; the self-contained variant, however, records the time
but keeps the `Q_dot` computed before the loop from the copied-in entity
state. -/
theorem c6_final_time_and_qdot_amended {α : Type} (hk : IntegHooks α)
    (s : GenInteg α) (c : SAComp) (lc : LagComp) (e : EntityState)
    (t0 t1 : ℚ) (fuel : ℕ) :
    (LC_compensate lc e t0 t1 fuel).2.lag_comp_data.time =
      (LC_compensate lc e t0 t1 fuel).2.integ_t ∧
    (LC_compensate lc e t0 t1 fuel).2.Q_dot =
      ⟨(compute_Q_dot (LC_compensate lc e t0 t1 fuel).2.lag_comp_data.quat_scalar
          (LC_compensate lc e t0 t1 fuel).2.lag_comp_data.quat_vector
          (LC_compensate lc e t0 t1 fuel).2.lag_comp_data.ang_vel).1,
        (compute_Q_dot (LC_compensate lc e t0 t1 fuel).2.lag_comp_data.quat_scalar
          (LC_compensate lc e t0 t1 fuel).2.lag_comp_data.quat_vector
          (LC_compensate lc e t0 t1 fuel).2.lag_comp_data.ang_vel).2⟩ ∧
    (SA_compensate c e t0 t1 fuel).2.lag_comp_data.time =
      (SA_compensate c e t0 t1 fuel).2.integ_t ∧
    (SA_compensate c e t0 t1 fuel).2.Q_dot =
      ⟨(compute_Q_dot e.state.quat_scalar e.state.quat_vector e.state.ang_vel).1,
       (compute_Q_dot e.state.quat_scalar e.state.quat_vector e.state.ang_vel).2⟩ ∧
    (LCI_integrate hk s t0 t1 fuel).2.obj =
      hk.derivative_first (hk.update_time
        (gen_loop hk t0 (t1 - t0) fuel
          { s with integ_t := t0, g := { s.g with time := 0 } }).1.obj
        (gen_loop hk t0 (t1 - t0) fuel
          { s with integ_t := t0, g := { s.g with time := 0 } }).1.integ_t) := by
  refine ⟨rfl, rfl, rfl, ?_, rfl⟩
  show (sa_loop t1 fuel _).1.Q_dot = _
  rw [sa_loop_Q_dot]
  rfl

/-- The step choice `if (dt_go > integ_dt) integ_dt else dt_go` is exactly
`min(dt_go, integ_dt)`. -/
lemma sa_step_size_eq_min (c : SAComp) (d : ℚ) :
    sa_step_size c d = min d c.integ_dt := by
  unfold sa_step_size
  rcases lt_or_ge c.integ_dt d with h | h
  · rw [if_pos h, min_eq_right h.le]
  · rw [if_neg (not_lt.mpr h), min_eq_left h]

/-- The delegated variant's step choice is likewise `min(dt_go, integ_dt)`. -/
lemma lc_step_size_eq_min (c : LagComp) (d : ℚ) :
    lc_step_size c d = min d c.integ_dt := by
  unfold lc_step_size
  rcases lt_or_ge c.integ_dt d with h | h
  · rw [if_pos h, min_eq_right h.le]
  · rw [if_neg (not_lt.mpr h), min_eq_left h]

/-- C1: in both compensator variants the integration loop runs while the
remaining interval `dt_go` is non-negative and its magnitude exceeds the
tolerance; each iteration advances the integrator time by exactly
`min(dt_go, fixed_step)` (the loop body steps with that size and the integrator
reports the new time); and when `t_end` lies before the current integration
time the loop performs zero iterations, leaving the state untouched — the state
is never integrated backward. -/
theorem c1_loop_guard_min_step_no_backward
    (c : SAComp) (lc : LagComp) (tEnd tBack : ℚ) (n fuel : ℕ)
    (hgoSA : 0 ≤ tEnd - c.integ_t) (htolSA : c.integ_tol < |tEnd - c.integ_t|)
    (hbackSA : tBack < c.integ_t)
    (hgoLC : 0 ≤ tEnd - lc.integ_t) (htolLC : lc.integ_tol < |tEnd - lc.integ_t|)
    (hbackLC : tBack < lc.integ_t) :
    (∀ d : ℚ, sa_step_size c d = min d c.integ_dt) ∧
    (∀ h : ℚ, (sa_variable_step c h).integ_t = c.integ_t + h) ∧
    sa_loop tEnd (n + 1) c =
      ((sa_loop tEnd n (sa_variable_step c (min (tEnd - c.integ_t) c.integ_dt))).1,
       (sa_loop tEnd n (sa_variable_step c (min (tEnd - c.integ_t) c.integ_dt))).2 + 1) ∧
    sa_loop tBack fuel c = (c, 0) ∧
    (∀ d : ℚ, lc_step_size lc d = min d lc.integ_dt) ∧
    (∀ d : ℚ, (lc_next lc d).integ_t = lc.integ.time + min d lc.integ_dt) ∧
    lc_loop tEnd (n + 1) lc =
      ((lc_loop tEnd n (lc_next lc (tEnd - lc.integ_t))).1,
       (lc_loop tEnd n (lc_next lc (tEnd - lc.integ_t))).2 + 1) ∧
    lc_loop tBack fuel lc = (lc, 0) := by
  refine ⟨sa_step_size_eq_min c, fun h => rfl, ?_, ?_, lc_step_size_eq_min lc, ?_, ?_, ?_⟩
  · rw [sa_loop, if_pos ⟨hgoSA, htolSA⟩, sa_step_size_eq_min]
  · cases fuel with
    | zero => rfl
    | succ m =>
      rw [sa_loop, if_neg]
      rintro ⟨h0, _⟩
      linarith
  · intro d
    show lc.integ.time + lc_step_size lc d = _
    rw [lc_step_size_eq_min]
  · rw [lc_loop, if_pos ⟨hgoLC, htolLC⟩]
  · cases fuel with
    | zero => rfl
    | succ m =>
      rw [lc_loop, if_neg]
      rintro ⟨h0, _⟩
      linarith

/-- Witness for C1 at a concrete forward interval (dt_go = 1/30 below the fixed
step) and a concrete backward interval. -/
theorem c1_loop_guard_min_step_no_backward_witness :
    (0 ≤ (1 / 30 : ℚ) - sa0.integ_t ∧ sa0.integ_tol < |(1 / 30 : ℚ) - sa0.integ_t| ∧
      (-1 : ℚ) < sa0.integ_t) ∧
    sa_loop (-1) 2 sa0 = (sa0, 0) ∧ lc_loop (-1) 2 lc0 = (lc0, 0) := by
  refine ⟨⟨by with_unfolding_all decide, by with_unfolding_all decide,
    by with_unfolding_all decide⟩, ?_, ?_⟩
  · exact (c1_loop_guard_min_step_no_backward sa0 lc0 (1 / 30) (-1) 0 2
      (by with_unfolding_all decide) (by with_unfolding_all decide)
      (by with_unfolding_all decide) (by with_unfolding_all decide)
      (by with_unfolding_all decide) (by with_unfolding_all decide)).2.2.2.1
  · exact (c1_loop_guard_min_step_no_backward sa0 lc0 (1 / 30) (-1) 0 2
      (by with_unfolding_all decide) (by with_unfolding_all decide)
      (by with_unfolding_all decide) (by with_unfolding_all decide)
      (by with_unfolding_all decide) (by with_unfolding_all decide)).2.2.2.2.2.2.2

/-- A main step of the delegated loop leaves the configuration fields unchanged
and advances the integrator clock by the chosen step size. -/
lemma lc_next_fields (c : LagComp) (d : ℚ) :
    (lc_next c d).integ_dt = c.integ_dt ∧ (lc_next c d).integ_tol = c.integ_tol ∧
    (lc_next c d).integ.time = c.integ.time + lc_step_size c d ∧
    (lc_next c d).integ_t = (lc_next c d).integ.time :=
  ⟨rfl, rfl, rfl, rfl⟩

/-- When the remaining interval is a positive multiple of the fixed step, the
chosen step size is exactly the fixed step. -/
lemma lc_step_size_at_multiple (c : LagComp) (n : ℕ) (hd : 0 < c.integ_dt) :
    lc_step_size c (((n : ℚ) + 1) * c.integ_dt) = c.integ_dt := by
  have hle : c.integ_dt ≤ ((n : ℚ) + 1) * c.integ_dt := by
    have h1 : (1 : ℚ) ≤ (n : ℚ) + 1 := by
      have := Nat.cast_nonneg (α := ℚ) n
      linarith
    nlinarith
  unfold lc_step_size
  split_ifs with h
  · rfl
  · linarith

/-- Step-count lemma for the delegated variant's loop: starting with the
integrator clock synchronized with `integ_t`, a target `n` fixed steps ahead is
consumed in exactly `n` iterations. -/
lemma lc_loop_count (n : ℕ) :
    ∀ lc : LagComp, 0 < lc.integ_dt → 0 ≤ lc.integ_tol →
    lc.integ_tol < lc.integ_dt → lc.integ.time = lc.integ_t →
    (lc_loop (lc.integ_t + (n : ℚ) * lc.integ_dt) (n + 1) lc).2 = n := by
  induction n with
  | zero =>
    intro lc hd ht htd hti
    rw [lc_loop, if_neg]
    rintro ⟨h0, habs⟩
    have h1 : lc.integ_t + ((0 : ℕ) : ℚ) * lc.integ_dt - lc.integ_t = 0 := by
      push_cast
      ring
    rw [h1, abs_zero] at habs
    linarith
  | succ n ih =>
    intro lc hd ht htd hti
    have hgo : lc.integ_t + ((n + 1 : ℕ) : ℚ) * lc.integ_dt - lc.integ_t =
        ((n : ℚ) + 1) * lc.integ_dt := by
      push_cast
      ring
    have hpos : (0 : ℚ) < ((n : ℚ) + 1) * lc.integ_dt := by
      have := Nat.cast_nonneg (α := ℚ) n
      nlinarith
    have hguard : 0 ≤ lc.integ_t + ((n + 1 : ℕ) : ℚ) * lc.integ_dt - lc.integ_t ∧
        lc.integ_tol < |lc.integ_t + ((n + 1 : ℕ) : ℚ) * lc.integ_dt - lc.integ_t| := by
      constructor
      · rw [hgo]
        exact hpos.le
      · rw [hgo, abs_of_nonneg hpos.le]
        have h1 : (1 : ℚ) ≤ (n : ℚ) + 1 := by
          have := Nat.cast_nonneg (α := ℚ) n
          linarith

        nlinarith
    rw [lc_loop, if_pos hguard]
    have hd2 := lc_next_fields lc (lc.integ_t + ((n + 1 : ℕ) : ℚ) * lc.integ_dt - lc.integ_t)
    set c2 := lc_next lc (lc.integ_t + ((n + 1 : ℕ) : ℚ) * lc.integ_dt - lc.integ_t) with hc2
    have hstep2 : c2.integ_t = lc.integ_t + lc.integ_dt := by
      have hss : lc_step_size lc
          (lc.integ_t + ((n + 1 : ℕ) : ℚ) * lc.integ_dt - lc.integ_t) = lc.integ_dt := by
        rw [hgo]
        exact lc_step_size_at_multiple lc n hd
      rw [hd2.2.2.2, hd2.2.2.1, hti, hss]
    have htarget : lc.integ_t + ((n + 1 : ℕ) : ℚ) * lc.integ_dt =
        c2.integ_t + (n : ℚ) * c2.integ_dt := by
      rw [hstep2, hd2.1]
      push_cast
      ring
    rw [htarget, ih c2 (by rw [hd2.1]; exact hd) (by rw [hd2.2.1]; exact ht)
      (by rw [hd2.1, hd2.2.1]; exact htd) hd2.2.2.2.symm]

/-- A round of the generic loop leaves the configuration fields unchanged and
advances the integrator clock by the chosen step size. -/
lemma gen_next_fields {α : Type} (hk : IntegHooks α) (s : GenInteg α) (t0 d : ℚ) :
    (gen_next hk s t0 d).integ_dt = s.integ_dt ∧
    (gen_next hk s t0 d).integ_tol = s.integ_tol ∧
    (gen_next hk s t0 d).g.time =
      s.g.time + (if s.integ_dt < d then s.integ_dt else d) :=
  ⟨rfl, rfl, rfl⟩

/-- Step-count lemma for the generic loop: a remaining interval of `n` fixed
steps is consumed in exactly `n` rounds. -/
lemma gen_loop_count {α : Type} (hk : IntegHooks α) (t0 : ℚ) (n : ℕ) :
    ∀ (cdt : ℚ) (s : GenInteg α), 0 < s.integ_dt → 0 ≤ s.integ_tol →
    s.integ_tol < s.integ_dt → cdt - s.g.time = (n : ℚ) * s.integ_dt →
    (gen_loop hk t0 cdt (n + 1) s).2 = n := by
  induction n with
  | zero =>
    intro cdt s hd ht htd hrem
    rw [gen_loop, if_neg]
    rintro ⟨h0, habs⟩
    rw [hrem] at habs
    have h1 : ((0 : ℕ) : ℚ) * s.integ_dt = 0 := by
      push_cast
      ring
    rw [h1, abs_zero] at habs
    linarith
  | succ n ih =>
    intro cdt s hd ht htd hrem
    have h1 : (1 : ℚ) ≤ (n : ℚ) + 1 := by
      have := Nat.cast_nonneg (α := ℚ) n
      linarith
    have hpos : (0 : ℚ) < ((n + 1 : ℕ) : ℚ) * s.integ_dt := by
      push_cast
      nlinarith
    have hguard : 0 ≤ cdt - s.g.time ∧ s.integ_tol < |cdt - s.g.time| := by
      constructor
      · rw [hrem]
        exact hpos.le
      · rw [hrem, abs_of_nonneg hpos.le]
        push_cast
        nlinarith
    rw [gen_loop, if_pos hguard]
    have hf := gen_next_fields hk s t0 (cdt - s.g.time)
    set s2 := gen_next hk s t0 (cdt - s.g.time) with hs2
    have hstep : s2.g.time = s.g.time + s.integ_dt := by
      rw [hf.2.2, hrem]
      have hle : s.integ_dt ≤ ((n + 1 : ℕ) : ℚ) * s.integ_dt := by
        push_cast
        nlinarith
      rcases lt_or_ge s.integ_dt (((n + 1 : ℕ) : ℚ) * s.integ_dt) with h | h
      · rw [if_pos h]
      · rw [if_neg (not_lt.mpr h)]
        have : ((n + 1 : ℕ) : ℚ) * s.integ_dt = s.integ_dt := le_antisymm h hle
        rw [this]
    have hrem2 : cdt - s2.g.time = (n : ℚ) * s2.integ_dt := by
      rw [hstep, hf.1]
      have : cdt - s.g.time = ((n + 1 : ℕ) : ℚ) * s.integ_dt := hrem
      push_cast at this ⊢
      linarith
    rw [ih cdt s2 (by rw [hf.1]; exact hd) (by rw [hf.2.1]; exact ht)
      (by rw [hf.1, hf.2.1]; exact htd) hrem2]

/-- C7: for a target interval that is an exact positive multiple `n` of the
fixed step (with the step above the tolerance), the integration loop of the
delegated compensator performs exactly `n` main steps, and the generic
integrate loop performs exactly `n` load/unload rounds (the Euler stepper is
single-pass, so main steps and load/unload rounds coincide). -/
theorem c7_step_count_determinism {α : Type} (hk : IntegHooks α)
    (lc : LagComp) (s : GenInteg α) (n : ℕ) (tEndL t_begin t_end : ℚ)
    (h1 : 0 < lc.integ_dt) (h2 : 0 ≤ lc.integ_tol) (h3 : lc.integ_tol < lc.integ_dt)
    (h4 : lc.integ.time = lc.integ_t)
    (h5 : tEndL = lc.integ_t + (n : ℚ) * lc.integ_dt)
    (g1 : 0 < s.integ_dt) (g2 : 0 ≤ s.integ_tol) (g3 : s.integ_tol < s.integ_dt)
    (g4 : s.g.time = 0) (g5 : t_end - t_begin = (n : ℚ) * s.integ_dt) :
    (lc_loop tEndL (n + 1) lc).2 = n ∧
    (gen_loop hk t_begin (t_end - t_begin) (n + 1) s).2 = n := by
  constructor
  · rw [h5]
    exact lc_loop_count n lc h1 h2 h3 h4
  · refine gen_loop_count hk t_begin n (t_end - t_begin) s g1 g2 g3 ?_
    rw [g4, sub_zero]
    exact g5

/-- Witness for C7 with `n = 2` fixed steps of the default 0.05 over the
interval [0, 0.1]. -/
theorem c7_step_count_determinism_witness :
    ((0 : ℚ) < lc0.integ_dt ∧ lc0.integ_tol < lc0.integ_dt ∧
      (1 / 10 : ℚ) = lc0.integ_t + ((2 : ℕ) : ℚ) * lc0.integ_dt) ∧
    (lc_loop (1 / 10) 3 lc0).2 = 2 ∧
    (gen_loop hooks0 0 ((1 / 10) - 0) 3 gen0).2 = 2 := by
  refine ⟨⟨by with_unfolding_all decide, by with_unfolding_all decide,
    by with_unfolding_all decide⟩, ?_, ?_⟩
  · exact (c7_step_count_determinism hooks0 lc0 gen0 2 (1 / 10) 0 (1 / 10)
      (by with_unfolding_all decide) (by with_unfolding_all decide)
      (by with_unfolding_all decide) (by with_unfolding_all decide)
      (by with_unfolding_all decide) (by with_unfolding_all decide)
      (by with_unfolding_all decide) (by with_unfolding_all decide)
      (by with_unfolding_all decide) (by with_unfolding_all decide)).1
  · exact (c7_step_count_determinism hooks0 lc0 gen0 2 (1 / 10) 0 (1 / 10)
      (by with_unfolding_all decide) (by with_unfolding_all decide)
      (by with_unfolding_all decide) (by with_unfolding_all decide)
      (by with_unfolding_all decide) (by with_unfolding_all decide)
      (by with_unfolding_all decide) (by with_unfolding_all decide)
      (by with_unfolding_all decide) (by with_unfolding_all decide)).2

end THLAV
